import Mathlib

/-!
# Verification of the finance_app core pipeline

Shallow embedding of the validator / aggregator / scorer / advice pipeline of
`finance_app` (files `logic.py` and `ai.py`).  Python real arithmetic is
modelled exactly by `ℚ`; Python `int()` truncation is modelled by `pyTrunc`;
Python exceptions are modelled by `Option` results.
-/

set_option autoImplicit false

namespace FinanceApp

/-- Python `int()` applied to a real value: truncation toward zero. -/
def pyTrunc (q : ℚ) : ℤ := if q < 0 then -⌊-q⌋ else ⌊q⌋

/-- Steps 1–4 of `calculate_health_score` (logic.py lines 211–239), before the
final clamp: ratios, directional deviations, weighted score, and the two hard
risk rules (`savings < 0` forces the score to 0, `n > 0.75` subtracts 10). -/
def raw_score (income needs wants savings : ℚ) : ℚ :=
  let n := needs / income
  let w := wants / income
  let s := savings / income
  let Dn := max 0 (n - 0.5)
  let Dw := max 0 (w - 0.3)
  let Ds := max 0 (0.2 - s)
  let score := 100 * (1 - (0.2 * Dn + 0.5 * Dw + 0.6 * Ds))
  let score := if savings < 0 then 0 else score
  if n > 0.75 then score - 10 else score

/-- `calculate_health_score` (logic.py lines 182–244): returns 0 when
`income <= 0`, otherwise clamps the raw score to `[0, 100]` and truncates to
an integer with Python `int()`. -/
def calculate_health_score (income needs wants savings : ℚ) : ℤ :=
  if income ≤ 0 then 0
  else pyTrunc (max 0 (min 100 (raw_score income needs wants savings)))

/-- On a non-negative argument, `pyTrunc` is the floor. -/
theorem pyTrunc_of_nonneg {q : ℚ} (h : 0 ≤ q) : pyTrunc q = ⌊q⌋ := by
  unfold pyTrunc
  rw [if_neg (not_lt.mpr h)]

/-- `pyTrunc` is monotone between non-negative arguments. -/
theorem pyTrunc_le_pyTrunc {a b : ℚ} (ha : 0 ≤ a) (hab : a ≤ b) :
    pyTrunc a ≤ pyTrunc b := by
  rw [pyTrunc_of_nonneg ha, pyTrunc_of_nonneg (ha.trans hab)]
  exact Int.floor_le_floor hab

theorem pyTrunc_clamp_nonneg (q : ℚ) : 0 ≤ pyTrunc (max 0 (min 100 q)) := by
  rw [pyTrunc_of_nonneg (le_max_left _ _)]
  exact Int.le_floor.mpr (by exact_mod_cast le_max_left (0:ℚ) (min 100 q))

theorem pyTrunc_clamp_le_100 (q : ℚ) : pyTrunc (max 0 (min 100 q)) ≤ 100 := by
  rw [pyTrunc_of_nonneg (le_max_left _ _)]
  have h : max (0:ℚ) (min 100 q) ≤ 100 :=
    max_le (by norm_num) (min_le_left _ _)
  calc ⌊max (0:ℚ) (min 100 q)⌋ ≤ ⌊(100:ℚ)⌋ := Int.floor_le_floor h
    _ = 100 := by norm_num

/-- C1: for every input with `savings < 0`, `calculate_health_score` returns 0,
regardless of the values of `income`, `needs` and `wants` — in particular also
when `needs/income > 0.75`, where the further 10-point penalty drives the
pre-clamp score to −10 and the final clamp brings it back to 0. -/
theorem calculate_health_score_neg_savings_zero
    (income needs wants savings : ℚ) (h : savings < 0) :
    calculate_health_score income needs wants savings = 0 := by
  unfold calculate_health_score
  split
  · rfl
  · unfold raw_score
    simp only [if_pos h]
    split
    · have h1 : max (0:ℚ) (min 100 (0 - 10)) = 0 := by norm_num
      rw [h1]
      simp [pyTrunc]
    · have h1 : max (0:ℚ) (min 100 0) = 0 := by norm_num
      rw [h1]
      simp [pyTrunc]

/-- Witness for C1: the spec's concrete scenario
`income=2000, needs=1200, wants=900, savings=-100` scores 0. -/
theorem calculate_health_score_neg_savings_zero_witness :
    calculate_health_score 2000 1200 900 (-100) = 0 :=
  calculate_health_score_neg_savings_zero 2000 1200 900 (-100) (by norm_num)

/-- C3: at an exact 50/30/20 split of a positive income the score is
exactly 100. -/
theorem calculate_health_score_exact_split
    (income needs wants savings : ℚ) (h : 0 < income)
    (hn : needs = 0.5 * income) (hw : wants = 0.3 * income)
    (hs : savings = 0.2 * income) :
    calculate_health_score income needs wants savings = 100 := by
  have hne : income ≠ 0 := ne_of_gt h
  have h1 : needs / income = 0.5 := by rw [hn]; field_simp
  have h2 : wants / income = 0.3 := by rw [hw]; field_simp
  have h3 : savings / income = 0.2 := by rw [hs]; field_simp
  have hsav : ¬ savings < 0 := by
    rw [hs]; exact not_lt.mpr (by positivity)
  simp only [calculate_health_score, raw_score, if_neg (not_le.mpr h), h1, h2, h3]
  rw [if_neg hsav, if_neg (by norm_num : ¬ (0.5:ℚ) > 0.75)]
  norm_num [pyTrunc]

/-- Witness for C3: the spec's concrete scenario
`income=2000, needs=1000, wants=600, savings=400` scores 100. -/
theorem calculate_health_score_exact_split_witness :
    calculate_health_score 2000 1000 600 400 = 100 :=
  calculate_health_score_exact_split 2000 1000 600 400 (by norm_num)
    (by norm_num) (by norm_num) (by norm_num)

/-- C4: the score is always an integer in `[0, 100]`; when `income > 0` it is
obtained by clamping the raw score to `[0, 100]` and then truncating toward
zero with Python `int()` (no rounding); and whenever `income ≤ 0` the function
returns 0 (it never raises: division by zero is guarded). -/
theorem calculate_health_score_range (income needs wants savings : ℚ) :
    (0 ≤ calculate_health_score income needs wants savings ∧
      calculate_health_score income needs wants savings ≤ 100) ∧
    (0 < income →
      calculate_health_score income needs wants savings =
        pyTrunc (max 0 (min 100 (raw_score income needs wants savings)))) ∧
    (income ≤ 0 → calculate_health_score income needs wants savings = 0) := by
  refine ⟨?_, fun hpos => ?_, fun hle => ?_⟩
  · unfold calculate_health_score
    split
    · exact ⟨le_refl 0, by norm_num⟩
    · exact ⟨pyTrunc_clamp_nonneg _, pyTrunc_clamp_le_100 _⟩
  · unfold calculate_health_score
    rw [if_neg (not_le.mpr hpos)]
  · unfold calculate_health_score
    rw [if_pos hle]

/-- Witness for C4: at `income = 0` the implication branch yields score 0, and
the bounds hold at a concrete overspending input. -/
theorem calculate_health_score_range_witness :
    calculate_health_score 0 300 200 100 = 0 ∧
      0 ≤ calculate_health_score 2000 1900 1800 (-50) := by
  exact ⟨(calculate_health_score_range 0 300 200 100).2.2 (by norm_num),
    ((calculate_health_score_range 2000 1900 1800 (-50)).1).1⟩

/-- The score seen as a function of the three directional deviations
`Dn, Dw, Ds` alone.  For `income > 0` the two hard risk rules of
`calculate_health_score` are equivalent to conditions on the deviations
(`savings < 0 ↔ Ds > 0.2` and `n > 0.75 ↔ Dn > 0.25`), so the whole score
factors through this function (see `calculate_health_score_eq_scoreF`). -/
def scoreF (dn dw ds : ℚ) : ℤ :=
  pyTrunc (max 0 (min 100 (
    let base := 100 * (1 - (0.2 * dn + 0.5 * dw + 0.6 * ds))
    let base := if ds > 0.2 then 0 else base
    if dn > 0.25 then base - 10 else base)))

theorem calculate_health_score_eq_scoreF
    (income needs wants savings : ℚ) (h : 0 < income) :
    calculate_health_score income needs wants savings =
      scoreF (max 0 (needs / income - 0.5)) (max 0 (wants / income - 0.3))
        (max 0 (0.2 - savings / income)) := by
  have hds : savings < 0 ↔ max (0:ℚ) (0.2 - savings / income) > 0.2 := by
    simp only [gt_iff_lt, lt_max_iff]
    constructor
    · intro hs
      right
      have : savings / income < 0 := by
        rw [div_lt_iff₀ h]; simpa using hs
      linarith
    · rintro (hs | hs)
      · norm_num at hs
      · have : savings / income < 0 := by linarith
        rw [div_lt_iff₀ h] at this
        simpa using this
  have hdn : needs / income > 0.75 ↔ max (0:ℚ) (needs / income - 0.5) > 0.25 := by
    simp only [gt_iff_lt, lt_max_iff]
    constructor
    · intro hn; right; linarith
    · rintro (hn | hn)
      · norm_num at hn
      · linarith
  simp only [calculate_health_score, raw_score, scoreF, if_neg (not_le.mpr h)]
  by_cases h1 : savings < 0 <;> by_cases h2 : needs / income > 0.75
  · rw [if_pos h1, if_pos (hds.mp h1), if_pos h2, if_pos (hdn.mp h2)]
  · rw [if_pos h1, if_pos (hds.mp h1), if_neg h2,
      if_neg (fun hc => h2 (hdn.mpr hc))]
  · rw [if_neg h1, if_neg (fun hc => h1 (hds.mpr hc)), if_pos h2,
      if_pos (hdn.mp h2)]
  · rw [if_neg h1, if_neg (fun hc => h1 (hds.mpr hc)), if_neg h2,
      if_neg (fun hc => h2 (hdn.mpr hc))]

theorem scoreF_anti_dn {dn₁ dn₂ : ℚ} (dw ds : ℚ) (h : dn₁ ≤ dn₂) :
    scoreF dn₂ dw ds ≤ scoreF dn₁ dw ds := by
  simp only [scoreF]
  refine pyTrunc_le_pyTrunc (le_max_left _ _) ?_
  refine max_le_max le_rfl (min_le_min le_rfl ?_)
  split_ifs <;> linarith

theorem scoreF_anti_dw {dw₁ dw₂ : ℚ} (dn ds : ℚ) (h : dw₁ ≤ dw₂) :
    scoreF dn dw₂ ds ≤ scoreF dn dw₁ ds := by
  simp only [scoreF]
  refine pyTrunc_le_pyTrunc (le_max_left _ _) ?_
  refine max_le_max le_rfl (min_le_min le_rfl ?_)
  split_ifs <;> linarith

theorem scoreF_anti_ds {ds₁ ds₂ : ℚ} (dn dw : ℚ) (h : ds₁ ≤ ds₂) :
    scoreF dn dw ds₂ ≤ scoreF dn dw ds₁ := by
  simp only [scoreF]
  by_cases h2 : ds₂ > 0.2
  · rw [if_pos h2]
    have hclamp : max (0:ℚ) (min 100 (if dn > 0.25 then 0 - 10 else 0)) = 0 := by
      split_ifs <;> norm_num
    rw [hclamp]
    have h0 : pyTrunc 0 = 0 := by simp [pyTrunc]
    rw [h0]
    exact pyTrunc_clamp_nonneg _
  · have h1 : ¬ ds₁ > 0.2 := fun hc => h2 (lt_of_lt_of_le hc h)
    refine pyTrunc_le_pyTrunc (le_max_left _ _) ?_
    refine max_le_max le_rfl (min_le_min le_rfl ?_)
    rw [if_neg h1, if_neg h2]
    split_ifs <;> linarith

/-- C5: the score is monotonically non-increasing in each directional
deviation `Dn = max 0 (needs/income − 0.5)`, `Dw = max 0 (wants/income − 0.3)`,
`Ds = max 0 (0.2 − savings/income)` individually, holding the other inputs
fixed; and spending below the needs/wants targets, or saving above 20% of
income, never yields a lower score than hitting the target exactly. -/
theorem calculate_health_score_directional_monotone :
    (∀ income needs₁ needs₂ wants savings : ℚ, 0 < income →
      max 0 (needs₁ / income - 0.5) ≤ max 0 (needs₂ / income - 0.5) →
      calculate_health_score income needs₂ wants savings ≤
        calculate_health_score income needs₁ wants savings) ∧
    (∀ income needs wants₁ wants₂ savings : ℚ, 0 < income →
      max 0 (wants₁ / income - 0.3) ≤ max 0 (wants₂ / income - 0.3) →
      calculate_health_score income needs wants₂ savings ≤
        calculate_health_score income needs wants₁ savings) ∧
    (∀ income needs wants savings₁ savings₂ : ℚ, 0 < income →
      max 0 (0.2 - savings₁ / income) ≤ max 0 (0.2 - savings₂ / income) →
      calculate_health_score income needs wants savings₂ ≤
        calculate_health_score income needs wants savings₁) ∧
    (∀ income needs wants savings : ℚ, 0 < income → needs ≤ 0.5 * income →
      calculate_health_score income (0.5 * income) wants savings ≤
        calculate_health_score income needs wants savings) ∧
    (∀ income needs wants savings : ℚ, 0 < income → wants ≤ 0.3 * income →
      calculate_health_score income needs (0.3 * income) savings ≤
        calculate_health_score income needs wants savings) ∧
    (∀ income needs wants savings : ℚ, 0 < income → 0.2 * income ≤ savings →
      calculate_health_score income needs wants (0.2 * income) ≤
        calculate_health_score income needs wants savings) := by
  have Hn : ∀ income needs₁ needs₂ wants savings : ℚ, 0 < income →
      max 0 (needs₁ / income - 0.5) ≤ max 0 (needs₂ / income - 0.5) →
      calculate_health_score income needs₂ wants savings ≤
        calculate_health_score income needs₁ wants savings := by
    intro income needs₁ needs₂ wants savings h hd
    rw [calculate_health_score_eq_scoreF income needs₁ wants savings h,
      calculate_health_score_eq_scoreF income needs₂ wants savings h]
    exact scoreF_anti_dn _ _ hd
  have Hw : ∀ income needs wants₁ wants₂ savings : ℚ, 0 < income →
      max 0 (wants₁ / income - 0.3) ≤ max 0 (wants₂ / income - 0.3) →
      calculate_health_score income needs wants₂ savings ≤
        calculate_health_score income needs wants₁ savings := by
    intro income needs wants₁ wants₂ savings h hd
    rw [calculate_health_score_eq_scoreF income needs wants₁ savings h,
      calculate_health_score_eq_scoreF income needs wants₂ savings h]
    exact scoreF_anti_dw _ _ hd
  have Hs : ∀ income needs wants savings₁ savings₂ : ℚ, 0 < income →
      max 0 (0.2 - savings₁ / income) ≤ max 0 (0.2 - savings₂ / income) →
      calculate_health_score income needs wants savings₂ ≤
        calculate_health_score income needs wants savings₁ := by
    intro income needs wants savings₁ savings₂ h hd
    rw [calculate_health_score_eq_scoreF income needs wants savings₁ h,
      calculate_health_score_eq_scoreF income needs wants savings₂ h]
    exact scoreF_anti_ds _ _ hd
  refine ⟨Hn, Hw, Hs, ?_, ?_, ?_⟩
  · intro income needs wants savings h hn
    refine Hn income needs (0.5 * income) wants savings h ?_
    have hne : income ≠ 0 := ne_of_gt h
    have e1 : (0.5 * income) / income = 0.5 := by field_simp
    have e2 : needs / income ≤ 0.5 := by
      rw [div_le_iff₀ h]; linarith
    rw [e1]
    simp only [max_le_iff]
    constructor
    · exact le_max_left _ _
    · rw [le_max_iff]; left; linarith
  · intro income needs wants savings h hw
    refine Hw income needs wants (0.3 * income) savings h ?_
    have e1 : (0.3 * income) / income = 0.3 := by field_simp [ne_of_gt h]
    have e2 : wants / income ≤ 0.3 := by
      rw [div_le_iff₀ h]; linarith
    rw [e1]
    simp only [max_le_iff]
    refine ⟨le_max_left _ _, ?_⟩
    rw [le_max_iff]; left; linarith
  · intro income needs wants savings h hs
    refine Hs income needs wants savings (0.2 * income) h ?_
    have e1 : (0.2 * income) / income = 0.2 := by field_simp [ne_of_gt h]
    have e2 : (0.2 : ℚ) ≤ savings / income := by
      rw [le_div_iff₀ h]; linarith
    rw [e1]
    simp only [max_le_iff]
    refine ⟨le_max_left _ _, ?_⟩
    rw [le_max_iff]; left; linarith

/-- Witness for C5: raising needs overspend from the target (deviation 0) to
80% of income (deviation 0.3) cannot raise the score. -/
theorem calculate_health_score_directional_monotone_witness :
    calculate_health_score 2000 1600 600 400 ≤
      calculate_health_score 2000 1000 600 400 :=
  calculate_health_score_directional_monotone.1 2000 1000 1600 600 400
    (by norm_num) (by norm_num)

/-! ## Validator (`validate_file`, logic.py lines 42–147)

The workbook parse itself (openpyxl) is outside the model: a `Table` is the
already-parsed sheet, a header row of column names plus data rows.  Cell
values are the Python values openpyxl produces: `none` for an empty cell,
`str` for text, `num` for int/float cells (modelled exactly by `ℚ`), and
`date` for native datetime cells. -/

inductive Cell where
  | none : Cell
  | str : String → Cell
  | num : ℚ → Cell
  | date : Cell
deriving DecidableEq

/-- One data row, restricted to the five required columns
`Date, Name, Type, Amount, Category`. -/
structure Row where
  date : Cell
  name : Cell
  type : Cell
  amount : Cell
  category : Cell
deriving DecidableEq

/-- A parsed sheet: the header row and the data rows (each row's cells under
the five required column names; cells under other headers are irrelevant to
`validate_file`, which restricts to the required columns first). -/
structure Table where
  headers : List String
  rows : List Row

def required_cols : List String := ["Date", "Name", "Type", "Amount", "Category"]

/-- The `replace(r'^\s*$', pd.NA, regex=True)` normalization: a cell whose
text is only whitespace (or empty) becomes missing. -/
def normCell (c : Cell) : Cell :=
  match c with
  | .str s => if s.data.all Char.isWhitespace then .none else .str s
  | c => c

def normRow (r : Row) : Row :=
  { date := normCell r.date, name := normCell r.name, type := normCell r.type,
    amount := normCell r.amount, category := normCell r.category }

def isNoneCell (c : Cell) : Bool :=
  match c with
  | .none => true
  | _ => false

/-- `dropna(how='all')`: all five required fields missing after
normalization. -/
def rowAllEmpty (r : Row) : Bool :=
  isNoneCell r.date && isNoneCell r.name && isNoneCell r.type &&
    isNoneCell r.amount && isNoneCell r.category

/-- The whitespace normalization followed by dropping fully-empty rows and
re-indexing (logic.py lines 69–74). -/
def cleanRows (rows : List Row) : List Row :=
  (rows.map normRow).filter (fun r => !rowAllEmpty r)

/-- Zero-padded decimal rendering of `n` to `k` digits (helper for the
decimal rendering of numeric cells). -/
def natDigitsPad (n k : ℕ) : String :=
  let s := toString n
  (List.replicate (k - s.length) '0').asString ++ s

/-- Python `str()` of an int/float cell, on exact rationals: integers render
with no point, finite decimals with their (shortest) decimal expansion.
Infinite decimal expansions cannot arise from binary floats; they get a
fraction rendering as a total fallback. -/
def ratStr (q : ℚ) : String :=
  if q.den = 1 then toString q.num
  else
    match (List.range 21).find? (fun k => (q * (10:ℚ) ^ k).den == 1) with
    | some k =>
        let n := (q * (10:ℚ) ^ k).num
        (if n < 0 then "-" else "") ++ toString (n.natAbs / 10 ^ k) ++ "." ++
          natDigitsPad (n.natAbs % 10 ^ k) k
    | Option.none => toString q.num ++ "/" ++ toString q.den

/-- Python `str()` of a cell value as it reaches the amount checks:
`str(None) = "None"`, strings are themselves, numbers render decimally, and a
datetime renders in a form that is never parseable as a float. -/
def cellStr (c : Cell) : String :=
  match c with
  | .none => "None"
  | .str s => s
  | .num q => ratStr q
  | .date => "1899-12-30 00:00:00"

/-- Python `str.split(sep)` on a character list: `"" → [""]`, separators at
either end produce empty pieces. -/
def pySplit (sep : Char) : List Char → List (List Char)
  | [] => [[]]
  | c :: cs =>
      let r := pySplit sep cs
      if c = sep then [] :: r
      else
        match r with
        | [] => [[c]]
        | h :: t => (c :: h) :: t

/-- Numeric value of a digit-character list (0 for the empty list). -/
def digitsVal (cs : List Char) : ℕ :=
  cs.foldl (fun acc c => 10 * acc + (c.toNat - '0'.toNat)) 0

/-- The syntactic shape of a Python decimal literal accepted by `float()`:
an optional minus sign, an integer digit part and a fractional digit part
(one of which may be empty when a point is present). -/
structure PyDecimal where
  neg : Bool
  intPart : List Char
  fracPart : List Char
deriving DecidableEq

/-- The rational value of a parsed decimal literal. -/
def PyDecimal.val (d : PyDecimal) : ℚ :=
  (if d.neg then (-1:ℚ) else 1) *
    ((digitsVal d.intPart : ℚ) +
      (digitsVal d.fracPart : ℚ) / (10:ℚ) ^ d.fracPart.length)

/-- Python `float()` on a string, modelled for plain decimal literals:
optional surrounding whitespace, optional sign, digits with at most one
point, at least one digit.  Exponent/inf/nan/underscore forms are treated as
unparseable.  The parse returns the literal's shape; its numeric value is
`PyDecimal.val`. -/
def pyFloatParse (cs : List Char) : Option PyDecimal :=
  let cs := (cs.dropWhile Char.isWhitespace).reverse.dropWhile Char.isWhitespace |>.reverse
  let (neg, cs) : Bool × List Char :=
    match cs with
    | '-' :: rest => (true, rest)
    | '+' :: rest => (false, rest)
    | cs => (false, cs)
  match pySplit '.' cs with
  | [a] =>
      if a ≠ [] ∧ a.all Char.isDigit then some ⟨neg, a, []⟩
      else Option.none
  | [a, b] =>
      if (a ≠ [] ∨ b ≠ []) ∧ a.all Char.isDigit ∧ b.all Char.isDigit then
        some ⟨neg, a, b⟩
      else Option.none
  | _ => Option.none

/-- Python `str.isalnum()`: true on nonempty strings of alphanumeric
characters (modelled on the ASCII range), false on the empty string. -/
def pyIsAlnum (cs : List Char) : Bool :=
  !cs.isEmpty && cs.all Char.isAlphanum

/-- `pd.to_datetime(value, errors='coerce', unit='D', origin='1899-12-30')`
on a numeric Excel serial: succeeds exactly when the serial lands inside the
pandas `Timestamp` representable range (modelled to the day relative to the
1899-12-30 origin). -/
def timestampSerialInRange (q : ℚ) : Bool :=
  (-81187 : ℚ) ≤ q && q ≤ 132314

def isLeapYear (y : ℕ) : Bool :=
  (y % 4 == 0 && y % 100 != 0) || y % 400 == 0

def daysInMonth (m y : ℕ) : ℕ :=
  if m = 2 then (if isLeapYear y then 29 else 28)
  else if m = 4 ∨ m = 6 ∨ m = 9 ∨ m = 11 then 30
  else 31

/-- Strict-format parse `%d/%m/%Y` (or with dashes), with `errors='coerce'`:
day/month/4-digit-year fields, calendar-valid, and the year inside the
pandas `Timestamp` range. -/
def parseDMY (sep : Char) (cs : List Char) : Bool :=
  match pySplit sep cs with
  | [d, m, y] =>
      (!d.isEmpty && d.length ≤ 2 && d.all Char.isDigit) &&
      (!m.isEmpty && m.length ≤ 2 && m.all Char.isDigit) &&
      (y.length == 4 && y.all Char.isDigit) &&
      (1 ≤ digitsVal m && digitsVal m ≤ 12) &&
      (1 ≤ digitsVal d && digitsVal d ≤ daysInMonth (digitsVal m) (digitsVal y)) &&
      (1678 ≤ digitsVal y && digitsVal y ≤ 2261)
  | _ => false

/-- Date validation (logic.py lines 85–105). -/
def dateDiags (c : Cell) : List String :=
  match c with
  | .none => ["Date is empty."]
  | .date => []
  | .num q => if timestampSerialInRange q then [] else ["Invalid date format."]
  | .str s =>
      if parseDMY '/' s.data || parseDMY '-' s.data then []
      else ["Invalid date format."]

/-- Name validation (logic.py lines 107–110): missing, non-string, longer
than 150 characters, or not alphanumeric after removing spaces. -/
def nameDiags (c : Cell) : List String :=
  match c with
  | .str s =>
      if s.length > 150 || !pyIsAlnum (s.data.filter (fun ch => !(ch = ' '))) then
        ["Invalid name."]
      else []
  | _ => ["Invalid name."]

/-- Type validation (logic.py lines 112–115). -/
def typeDiags (c : Cell) : List String :=
  if c = .str "Needs" ∨ c = .str "Wants" ∨ c = .str "Savings" then []
  else ["Invalid type."]

/-- The text after the last decimal point of `s` (`s.split('.')[-1]`). -/
def afterLastDot (cs : List Char) : List Char :=
  (pySplit '.' cs).getLastD []

/-- Amount validation (logic.py lines 117–134): parse `str(amount)` with
commas stripped (`.replace(',', '')`); a parse failure or a non-positive
value is invalid; on a positive parse, the *original* text is re-inspected
and more than 3 characters after its last decimal point is invalid. -/
def amountDiags (c : Cell) : List String :=
  let s := (cellStr c).data
  match pyFloatParse (s.filter (fun ch => !(ch = ','))) with
  | Option.none => ["Invalid amount."]
  | some amt =>
      if amt.val ≤ 0 then ["Invalid amount."]
      else if s.contains '.' then
        (if (afterLastDot s).length > 3 then ["Invalid amount."] else [])
      else []

/-- Category validation (logic.py lines 136–139): missing, non-string, or
longer than 150 characters. -/
def categoryDiags (c : Cell) : List String :=
  match c with
  | .str s => if s.length > 150 then ["Invalid category."] else []
  | _ => ["Invalid category."]

/-- All diagnostics of the row at 0-based position `idx`, tagged with the
1-based row number `idx + 1`. -/
def rowDiags (idx : ℕ) (r : Row) : List (ℕ × String) :=
  (dateDiags r.date ++ nameDiags r.name ++ typeDiags r.type ++
    amountDiags r.amount ++ categoryDiags r.category).map (fun m => (idx + 1, m))

/-- The validator outcome: Python's `(True, df)` / `(False, errors)` pair. -/
inductive ValidationResult where
  | ok (df : List Row)
  | errs (errors : List (ℕ × String))
deriving DecidableEq

/-- `str(KeyError)` produced by `df[required_cols]` when columns are absent,
wrapped by the outer handler into the file-error diagnostic
(`"Error reading file: " + str(e)`, logic.py line 147). -/
def keyErrorMessage (missing : List String) : String :=
  "Error reading file: \x22[" ++
    String.intercalate ", " (missing.map (fun c => "\x27" ++ c ++ "\x27")) ++
    "] not in index\x22"

/-- `validate_file` on a parsed sheet.  `df[required_cols]` (logic.py line
70) raises `KeyError` when any required column is absent, and the outer
`except` (line 145–147) turns that into the single file-error diagnostic.
Otherwise rows are normalized and cleaned, the column-presence check of line
80 runs against the already-restricted frame (whose columns are exactly
`required_cols`, so it can never fire), and every row is validated. -/
def validate_file (t : Table) : ValidationResult :=
  let missing := required_cols.filter (fun c => !(t.headers.contains c))
  if missing ≠ [] then
    .errs [(0, keyErrorMessage missing)]
  else
    let df := cleanRows t.rows
    let headerErrors :=
      if ¬ (required_cols.all (fun c => required_cols.contains c)) then
        [((0:ℕ), "Missing required columns.")]
      else []
    let errors := headerErrors ++ (df.enum.map (fun p => rowDiags p.1 p.2)).flatten
    if errors.isEmpty then .ok df else .errs errors

/-- A sheet whose header row lacks the `Category` column, with one ordinary
data row. -/
def missingCategoryTable : Table :=
  { headers := ["Date", "Name", "Type", "Amount"],
    rows := [{ date := Cell.str "01/01/2026", name := Cell.str "Lunch",
               type := Cell.str "Needs", amount := Cell.num 10,
               category := Cell.none }] }

/-- C2 (code bug evidence): on a table missing the `Category` column,
`validate_file` does **not** produce the `(0, "Missing required columns.")`
diagnostic and does not go on validating rows: the column restriction
`df[required_cols]` raises `KeyError` first, so the caller sees only the
single `(0, "Error reading file: …")` diagnostic, and the explicit
missing-columns check of logic.py line 80 is unreachable. -/
theorem validate_file_missing_column_is_file_error :
    validate_file missingCategoryTable =
      ValidationResult.errs
        [(0, "Error reading file: \x22[\x27Category\x27] not in index\x22")] ∧
    ((0:ℕ), "Missing required columns.") ∉
      [((0:ℕ), "Error reading file: \x22[\x27Category\x27] not in index\x22")] := by
  constructor
  · show validate_file missingCategoryTable =
      ValidationResult.errs [(0, keyErrorMessage ["Category"])]
    rfl
  · decide

/-- C6: whenever the textual representation of a row's Amount cell contains a
decimal point with more than 3 characters after the last one, and the
comma-stripped text parses to a positive number, `validate_file` emits an
`"Invalid amount."` diagnostic for that row — the decimal-digit check runs on
the text, not the parsed value. -/
theorem validate_file_amount_decimal_text
    (t : Table) (i : ℕ) (r : Row) (d : PyDecimal)
    (hcols : required_cols.filter (fun c => !(t.headers.contains c)) = [])
    (hrow : (cleanRows t.rows)[i]? = some r)
    (hparse : pyFloatParse ((cellStr r.amount).data.filter (fun ch => !(ch = ','))) = some d)
    (hpos : 0 < d.val)
    (hdot : (cellStr r.amount).data.contains '.' = true)
    (hlen : 3 < (afterLastDot (cellStr r.amount).data).length) :
    ∃ es, validate_file t = ValidationResult.errs es ∧
      (i + 1, "Invalid amount.") ∈ es := by
  have hamount : amountDiags r.amount = ["Invalid amount."] := by
    simp only [amountDiags]
    rw [hparse]
    simp only [if_neg (not_le.mpr hpos), hdot, if_pos hlen, if_true]
  have hmem : (i + 1, "Invalid amount.") ∈
      ((cleanRows t.rows).enum.map (fun p => rowDiags p.1 p.2)).flatten := by
    rw [List.mem_flatten]
    refine ⟨rowDiags i r, ?_, ?_⟩
    · exact List.mem_map.mpr ⟨(i, r), List.mk_mem_enum_iff_getElem?.mpr hrow, rfl⟩
    · unfold rowDiags
      refine List.mem_map.mpr ⟨"Invalid amount.", ?_, rfl⟩
      simp [hamount]
  unfold validate_file
  rw [hcols]
  simp only [ne_eq, not_true_eq_false, if_false, reduceIte]
  have hhead :
      (if ¬ (required_cols.all (fun c => required_cols.contains c)) then
        [((0:ℕ), "Missing required columns.")] else []) = [] := by decide
  rw [hhead, List.nil_append]
  have hne : ¬ ((cleanRows t.rows).enum.map
      (fun p => rowDiags p.1 p.2)).flatten.isEmpty = true := by
    intro hc
    rw [List.isEmpty_iff] at hc
    rw [hc] at hmem
    exact List.not_mem_nil _ hmem
  rw [if_neg hne]
  exact ⟨_, rfl, hmem⟩

/-- A sheet with one row whose Amount text `"1.1234"` has four decimal
digits. -/
def fourDecimalsTable : Table :=
  { headers := required_cols,
    rows := [{ date := Cell.str "01/01/2026", name := Cell.str "Test",
               type := Cell.str "Needs", amount := Cell.str "1.1234",
               category := Cell.str "Misc" }] }

/-- Witness for C6: the spec's `Amount = 1.1234` row is rejected with
`"Invalid amount."` although the text parses to the positive value
`1 + 1234/10⁴`. -/
theorem validate_file_amount_decimal_text_witness :
    ∃ es, validate_file fourDecimalsTable = ValidationResult.errs es ∧
      (0 + 1, "Invalid amount.") ∈ es := by
  refine validate_file_amount_decimal_text fourDecimalsTable 0
    { date := Cell.str "01/01/2026", name := Cell.str "Test",
      type := Cell.str "Needs", amount := Cell.str "1.1234",
      category := Cell.str "Misc" }
    ⟨false, ['1'], ['1','2','3','4']⟩ (by decide) (by decide) (by decide)
    ?_ (by decide) (by decide)
  have h1 : digitsVal ['1'] = 1 := by decide
  have h2 : digitsVal ['1','2','3','4'] = 1234 := by decide
  simp only [PyDecimal.val, h1, h2]
  norm_num

/-! ## Aggregator (`analyze_data`, logic.py lines 149–180)

`analyze_data` is modelled with its in-place mutation made explicit: the
Python function assigns `df['Category'] = df['Category'].str.lower()` into
the caller's frame, so the embedding returns the post-state of `df` next to
the `(needs, wants, savings, top_wants)` result. -/

/-- Python `str.lower()` (`.str.lower()` on a text cell). -/
def pyLower (s : String) : String :=
  (s.data.map Char.toLower).asString

/-- `df['Category'].str.lower()` on one cell: text is lower-cased, any
non-text value becomes missing (pandas `.str` accessor yields NaN there). -/
def lowerCatCell (c : Cell) : Cell :=
  match c with
  | .str s => .str (pyLower s)
  | _ => .none

/-- The numeric value of an Amount cell as summed by
`groupby(...)['Amount'].sum()`; the aggregation is modelled for tables whose
Amount column is numeric (the dtype the pipeline produces). -/
def amountVal (c : Cell) : ℚ :=
  match c with
  | .num q => q
  | _ => 0

def sumAmounts (rows : List Row) : ℚ :=
  (rows.map (fun r => amountVal r.amount)).sum

/-- A groupby key from a category cell: missing (NaN) keys are dropped by
pandas `groupby`. -/
def catKey (c : Cell) : Option String :=
  match c with
  | .str s => some s
  | _ => Option.none

/-- Keep the first occurrence of each key (the distinct groupby keys). -/
def dedupKeepFirst : List String → List String
  | [] => []
  | x :: xs => x :: (dedupKeepFirst xs).filter (fun y => !(y = x))

def insertStringAsc (x : String) : List String → List String
  | [] => [x]
  | y :: ys => if x < y then x :: y :: ys else y :: insertStringAsc x ys

/-- Ascending key sort (`groupby` sorts group keys). -/
def sortStringsAsc (l : List String) : List String :=
  l.foldl (fun acc x => insertStringAsc x acc) []

def insertAmountDesc (x : String × ℚ) : List (String × ℚ) → List (String × ℚ)
  | [] => [x]
  | y :: ys => if y.2 < x.2 then x :: y :: ys else y :: insertAmountDesc x ys

/-- Stable descending sort by summed amount (`Series.nlargest` keeps the
first-encountered entry on ties, i.e. ascending-key order). -/
def sortByAmountDesc (l : List (String × ℚ)) : List (String × ℚ) :=
  l.foldl (fun acc x => insertAmountDesc x acc) []

/-- `analyze_data(df, income)`: lower-cases the Category column **in place**,
sums Amount by Type with missing buckets defaulting to 0
(`buckets.get(key, 0)` equals the sum over the rows of that type, 0 when
there are none), and ranks the top 5 want-categories.  Returns the
post-state of `df` together with `(needs, wants, savings, top_wants)`.
The `income` parameter is never read by the body. -/
def analyze_data (df : List Row) (income : ℚ) :
    List Row × (ℚ × ℚ × ℚ × List (String × ℚ)) :=
  let df2 := df.map (fun r => { r with category := lowerCatCell r.category })
  let needs := sumAmounts (df2.filter (fun r => decide (r.type = Cell.str "Needs")))
  let wants := sumAmounts (df2.filter (fun r => decide (r.type = Cell.str "Wants")))
  let savings := sumAmounts (df2.filter (fun r => decide (r.type = Cell.str "Savings")))
  let wantsRows := df2.filter (fun r => decide (r.type = Cell.str "Wants"))
  let keys := sortStringsAsc (dedupKeepFirst (wantsRows.filterMap (fun r => catKey r.category)))
  let sums := keys.map (fun k =>
    (k, sumAmounts (wantsRows.filter (fun r => decide (r.category = Cell.str k)))))
  let top_wants := (sortByAmountDesc sums).take 5
  (df2, (needs, wants, savings, top_wants))

/-- C7: `analyze_data` (1–3) returns 0 for any type bucket with no rows,
(4) returns at most 5 `top_wants` entries however many distinct
want-categories exist, and (5) groups category values case-insensitively:
two Wants rows labelled `"Food"` and `"FOOD"` collapse into the single
entry `"food"` carrying their summed amount. -/
theorem analyze_data_aggregate :
    (∀ (df : List Row) (income : ℚ), (∀ r ∈ df, ¬ r.type = Cell.str "Needs") →
      (analyze_data df income).2.1 = 0) ∧
    (∀ (df : List Row) (income : ℚ), (∀ r ∈ df, ¬ r.type = Cell.str "Wants") →
      (analyze_data df income).2.2.1 = 0) ∧
    (∀ (df : List Row) (income : ℚ), (∀ r ∈ df, ¬ r.type = Cell.str "Savings") →
      (analyze_data df income).2.2.2.1 = 0) ∧
    (∀ (df : List Row) (income : ℚ),
      ((analyze_data df income).2.2.2.2).length ≤ 5) ∧
    (∀ (income a₁ a₂ : ℚ) (d₁ d₂ n₁ n₂ : Cell),
      (analyze_data
        [{ date := d₁, name := n₁, type := Cell.str "Wants",
           amount := Cell.num a₁, category := Cell.str "Food" },
         { date := d₂, name := n₂, type := Cell.str "Wants",
           amount := Cell.num a₂, category := Cell.str "FOOD" }]
        income).2.2.2.2 = [("food", a₁ + a₂)]) := by
  have hfilter : ∀ (df : List Row) (ty : String),
      (∀ r ∈ df, ¬ r.type = Cell.str ty) →
      (df.map (fun r => { r with category := lowerCatCell r.category })).filter
        (fun r => decide (r.type = Cell.str ty)) = [] := by
    intro df ty hdf
    rw [List.filter_eq_nil_iff]
    intro a ha
    rcases List.mem_map.mp ha with ⟨r, hr, hfr⟩
    subst hfr
    simpa using hdf r hr
  refine ⟨?_, ?_, ?_, ?_, ?_⟩
  · intro df income hdf
    show sumAmounts ((df.map _).filter _) = 0
    rw [hfilter df "Needs" hdf]
    rfl
  · intro df income hdf
    show sumAmounts ((df.map _).filter _) = 0
    rw [hfilter df "Wants" hdf]
    rfl
  · intro df income hdf
    show sumAmounts ((df.map _).filter _) = 0
    rw [hfilter df "Savings" hdf]
    rfl
  · intro df income
    exact List.length_take_le 5 _
  · intro income a₁ a₂ d₁ d₂ n₁ n₂
    have hF : pyLower "Food" = "food" := by decide
    have hG : pyLower "FOOD" = "food" := by decide
    show (sortByAmountDesc _).take 5 = [("food", a₁ + a₂)]
    norm_num [analyze_data, lowerCatCell, hF, hG, catKey, dedupKeepFirst,
      sortStringsAsc, insertStringAsc, sortByAmountDesc, insertAmountDesc,
      sumAmounts, amountVal]

/-- Witness for C7: an empty table has an empty Needs bucket, so needs is 0
(the hypothesis of the bucket-default part holds vacuously). -/
theorem analyze_data_aggregate_witness :
    (analyze_data [] 1500).2.1 = 0 :=
  analyze_data_aggregate.1 [] 1500 (by simp)

/-- A one-row table whose category is the mixed-case `"Food"`. -/
def foodRow : Row :=
  { date := Cell.date, name := Cell.str "Lunch", type := Cell.str "Wants",
    amount := Cell.num 5, category := Cell.str "Food" }

/-- C9 (counterexample): `analyze_data` is **not** pure in its input table —
it lower-cases the Category column in place, so the caller's table has
changed when it returns. -/
theorem analyze_data_mutates_input :
    (analyze_data [foodRow] 100).1 ≠ [foodRow] := by
  decide

/-- C9 (amended): the mutation is confined to the Category column — the
post-state of the input table has the same length, and every row keeps its
Date, Name, Type and Amount fields, with Category replaced by its
lower-cased value. -/
theorem analyze_data_frame_effect (df : List Row) (income : ℚ) :
    ((analyze_data df income).1).length = df.length ∧
    (∀ (i : ℕ) (r r' : Row), df[i]? = some r →
      ((analyze_data df income).1)[i]? = some r' →
      r'.date = r.date ∧ r'.name = r.name ∧ r'.type = r.type ∧
        r'.amount = r.amount ∧ r'.category = lowerCatCell r.category) := by
  have h1 : (analyze_data df income).1 =
      df.map (fun r => { r with category := lowerCatCell r.category }) := rfl
  constructor
  · rw [h1, List.length_map]
  · intro i r r' hr hr'
    rw [h1, List.getElem?_map, hr] at hr'
    cases hr'
    exact ⟨rfl, rfl, rfl, rfl, rfl⟩

/-- Witness for C9's amended theorem: on the one-row `"Food"` table the
post-state row keeps every field except the lower-cased category. -/
theorem analyze_data_frame_effect_witness :
    ((analyze_data [foodRow] 100).1).length = [foodRow].length :=
  (analyze_data_frame_effect [foodRow] 100).1

/-- C10: the result of `analyze_data` (post-state and aggregates alike) does
not depend on the `income` argument: the parameter is accepted but never
read. -/
theorem analyze_data_income_independent (df : List Row) (i₁ i₂ : ℚ) :
    analyze_data df i₁ = analyze_data df i₂ := rfl

/-! ## Advice enricher (`get_ai_insights` and `_build_fallback_advice`, ai.py)

The external call's observable outcomes are modelled by `GenAIOutcome`;
Python exceptions escaping `get_ai_insights` are modelled by an `Option.none`
result.  `top_wants` is modelled as the association list of the mapping the
function consumes. -/

/-- Round half to even (the rounding of Python's `"%.1f"`-style formatting,
modelled on exact rationals). -/
def roundHalfEven (q : ℚ) : ℤ :=
  let f := ⌊q⌋
  let r := q - f
  if r < 1/2 then f
  else if 1/2 < r then f + 1
  else if f % 2 = 0 then f else f + 1

/-- Python `f"{q:.1f}"`: one fractional digit, round half to even. -/
def fmt1 (q : ℚ) : String :=
  let n := roundHalfEven (q * 10)
  (if n < 0 then "-" else "") ++ toString (n.natAbs / 10) ++ "." ++
    toString (n.natAbs % 10)

/-- `_build_fallback_advice` (ai.py lines 30–85): deterministic advice from
the score bucket and the formatted percentage split.  The percentage
bindings are guarded by `if income`, but `top_wants_text` divides by
`income` unguarded inside the join, so a nonempty `top_wants` with
`income = 0` raises `ZeroDivisionError` — modelled by `Option.none`. -/
def build_fallback_advice (score : ℤ) (income needs wants savings : ℚ)
    (top_wants : List (String × ℚ)) : Option String :=
  let needs_pct := if income ≠ 0 then needs / income * 100 else 0
  let wants_pct := if income ≠ 0 then wants / income * 100 else 0
  let savings_pct := if income ≠ 0 then savings / income * 100 else 0
  let top_text : Option String :=
    if top_wants ≠ [] then
      (if income = 0 then Option.none
       else some (String.intercalate ", "
         ((top_wants.take 3).map
           (fun kv => kv.1 ++ ": " ++ fmt1 (kv.2 / income * 100) ++ "%"))))
    else some "No dominant wants categories"
  match top_text with
  | Option.none => Option.none
  | some top_wants_text =>
      let templates : List String :=
        ["Based on your 50/30/20 analysis, tighten wants spending and lift savings to reach your 20% target."
           ++ " Needs: " ++ fmt1 needs_pct ++ "% (50% target), Wants: " ++ fmt1 wants_pct
           ++ "% (30% target), Savings: " ++ fmt1 savings_pct ++ "% (20% target).",
         "Your score shows room to rebalance: trim non-essentials and redirect to savings until you hit 20%."
           ++ " Current split — Needs " ++ fmt1 needs_pct ++ "%, Wants " ++ fmt1 wants_pct
           ++ "%, Savings " ++ fmt1 savings_pct ++ "%.",
         "Focus on two actions: reduce wants by 5–10% and move that to savings; keep needs near 50%."
           ++ " Snapshot: Needs " ++ fmt1 needs_pct ++ "%, Wants " ++ fmt1 wants_pct
           ++ "%, Savings " ++ fmt1 savings_pct ++ "%.",
         "Bring wants closer to 30% and push savings toward 20%. Start with your top wants categories: "
           ++ top_wants_text ++ ".",
         "Solid start. Nudge savings up by trimming the largest wants categories and automate a monthly transfer to savings."
           ++ " Needs " ++ fmt1 needs_pct ++ "%, Wants " ++ fmt1 wants_pct
           ++ "%, Savings " ++ fmt1 savings_pct ++ "%.",
         "Good balance. To reach Excellent, aim for Wants ≤30% and Savings ≥20%. Keep Needs near 50%."
           ++ " Current: Needs " ++ fmt1 needs_pct ++ "%, Wants " ++ fmt1 wants_pct
           ++ "%, Savings " ++ fmt1 savings_pct ++ "%.",
         "Efficiency tweak: freeze 1–2 discretionary categories for 30 days and divert that amount to savings."
           ++ " Needs " ++ fmt1 needs_pct ++ "%, Wants " ++ fmt1 wants_pct
           ++ "%, Savings " ++ fmt1 savings_pct ++ "%.",
         "If income is volatile, pre-commit a fixed savings % on payday and cap wants at 30%."
           ++ " Present mix: Needs " ++ fmt1 needs_pct ++ "%, Wants " ++ fmt1 wants_pct
           ++ "%, Savings " ++ fmt1 savings_pct ++ "%.",
         "Close the gap by targeting the top 3 wants categories: "
           ++ top_wants_text ++ ". Reallocate at least half of those amounts to savings.",
         "Great trajectory. Lock in a minimum 20% savings auto-transfer and keep wants under 30% to maintain an Excellent score."
           ++ " Needs " ++ fmt1 needs_pct ++ "%, Wants " ++ fmt1 wants_pct
           ++ "%, Savings " ++ fmt1 savings_pct ++ "%."]
      let idx : ℕ :=
        if score < 40 then 0
        else if score < 55 then 1
        else if score < 65 then 2
        else if score < 70 then 3
        else if score < 75 then 4
        else if score < 80 then 5
        else if score < 85 then 6
        else if score < 90 then 7
        else if score < 95 then 8
        else 9
      some (templates.getD idx "")

/-- Observable outcomes of the external text-generation step of
`get_ai_insights`: package missing, credential missing, any raised
exception (network error, timeout, client failure), a falsy/empty response
text, or a successful response text. -/
inductive GenAIOutcome where
  | unavailable
  | noApiKey
  | exceptionRaised
  | emptyResponse
  | success (text : String)

/-- `get_ai_insights` (ai.py lines 88–282): computes the score with
`calculate_health_score`, builds the deterministic fallback string, and
only then consults the external service; every non-success outcome returns
the fallback advice, a success returns the response text, and in all cases
the returned score is the locally computed one.  A `ZeroDivisionError`
raised while building the fallback (before the external call) escapes as
`Option.none`. -/
def get_ai_insights (income needs wants savings : ℚ)
    (top_wants : List (String × ℚ)) (outcome : GenAIOutcome) :
    Option (ℤ × String) :=
  let score := calculate_health_score income needs wants savings
  match build_fallback_advice score income needs wants savings top_wants with
  | Option.none => Option.none
  | some fallback_advice =>
      match outcome with
      | .unavailable => some (score, fallback_advice)
      | .noApiKey => some (score, fallback_advice)
      | .exceptionRaised => some (score, fallback_advice)
      | .emptyResponse => some (score, fallback_advice)
      | .success text => some (score, text)

/-- The fallback builder succeeds whenever `income ≠ 0` or `top_wants` is
empty (the only division it performs is guarded away in those cases). -/
theorem build_fallback_advice_total (score : ℤ)
    (income needs wants savings : ℚ) (tw : List (String × ℚ))
    (h : income ≠ 0 ∨ tw = []) :
    ∃ fb, build_fallback_advice score income needs wants savings tw = some fb := by
  simp only [build_fallback_advice]
  by_cases htw : tw = []
  · subst htw
    rw [if_neg (by simp)]
    exact ⟨_, rfl⟩
  · have hinc : income ≠ 0 := h.resolve_right htw
    rw [if_pos htw, if_neg hinc]
    exact ⟨_, rfl⟩

theorem get_ai_insights_of_fallback (income needs wants savings : ℚ)
    (tw : List (String × ℚ)) (g : GenAIOutcome) (fb : String)
    (hfb : build_fallback_advice (calculate_health_score income needs wants savings)
      income needs wants savings tw = some fb) :
    get_ai_insights income needs wants savings tw g =
      some (calculate_health_score income needs wants savings,
        match g with
        | GenAIOutcome.success text => text
        | _ => fb) := by
  simp only [get_ai_insights]
  rw [hfb]
  cases g <;> rfl

/-- C8 (counterexample): with `income = 0` and a nonempty `top_wants`, the
fallback builder's unguarded division raises, the exception propagates, and
`get_ai_insights` returns nothing at all — in particular not the computed
score with the fallback string, even though the external step never ran. -/
theorem get_ai_insights_zero_income_raises :
    get_ai_insights 0 500 300 200 [("food", 100)] GenAIOutcome.unavailable =
      Option.none := by
  rfl

/-- C8 (amended): whenever the fallback construction cannot raise
(`income ≠ 0`, or `top_wants` empty), `get_ai_insights` returns exactly the
locally computed `calculate_health_score` — never a value parsed from the
external response — paired with the response text on success and with the
unchanged deterministic fallback string on every failure outcome (package
unavailable, missing credentials, raised exception/timeout, empty
response). -/
theorem get_ai_insights_contract (income needs wants savings : ℚ)
    (tw : List (String × ℚ)) (g : GenAIOutcome)
    (h : income ≠ 0 ∨ tw = []) :
    ∃ fb, build_fallback_advice (calculate_health_score income needs wants savings)
        income needs wants savings tw = some fb ∧
      get_ai_insights income needs wants savings tw g =
        some (calculate_health_score income needs wants savings,
          match g with
          | GenAIOutcome.success text => text
          | _ => fb) := by
  obtain ⟨fb, hfb⟩ := build_fallback_advice_total
    (calculate_health_score income needs wants savings) income needs wants savings tw h
  exact ⟨fb, hfb, get_ai_insights_of_fallback income needs wants savings tw g fb hfb⟩

/-- Witness for C8's amended theorem: at a positive income and a failing
external call, the returned pair is the computed score with the fallback
string. -/
theorem get_ai_insights_contract_witness :
    ∃ fb, build_fallback_advice (calculate_health_score 1000 500 300 200)
        1000 500 300 200 [("food", 100)] = some fb ∧
      get_ai_insights 1000 500 300 200 [("food", 100)]
          GenAIOutcome.exceptionRaised =
        some (calculate_health_score 1000 500 300 200, fb) :=
  get_ai_insights_contract 1000 500 300 200 [("food", 100)]
    GenAIOutcome.exceptionRaised (Or.inl (by norm_num))

end FinanceApp
